import Mathlib

/-!
Shallow embedding of the `bacon-rajan-cc` cycle-collecting reference-counted
pointer library (files `src/lib.rs`, `src/cc_box_ptr.rs`, `src/collect.rs`).

The heap is modelled as a map from node identifiers (`Nat`) to nodes.  Each
node carries the per-object header `CcBoxData` (strong count, weak count,
buffered flag, color), the list of strong children its payload's `Trace`
implementation would visit, a flag recording whether the payload value is
still alive (its destructor has not run), and a flag recording whether the
backing storage is still allocated.  Destructor runs and deallocations are
appended to a chronological event log so that ordering properties can be
stated.

Graph traversals in the source (`Cc::drop` recursing through payload
destructors, `scan`, `scan_black`, `collect_white`, the `mark_roots`
worklist loop) are not structurally terminating on arbitrary graphs, so the
embedding threads an explicit fuel argument; every theorem about a concrete
run supplies ample fuel.
-/

namespace BaconRajanCc

/-- Color enumeration from `lib.rs` (`pub enum Color`). -/
inductive Color where
  | Black
  | Gray
  | White
  | Purple
  | Red
  | Orange
deriving DecidableEq

/-- Per-object header, `CcBoxData` in `lib.rs`. -/
structure CcBoxData where
  strong : Nat
  weak : Nat
  buffered : Bool
  color : Color
deriving DecidableEq

/-- One allocated object: header, the strong children its payload traces,
whether the payload value is still alive (destructor not yet run), and
whether the backing storage is still allocated. -/
structure Node where
  data : CcBoxData
  children : List Nat
  alive : Bool
  allocated : Bool
deriving DecidableEq

/-- Observable events: a payload destructor run (`drop_value` /
`ptr::drop_in_place`) and a storage deallocation (`deallocate`). -/
inductive Event where
  | dropValue (i : Nat)
  | dealloc (i : Nat)
deriving DecidableEq

/-- Whole-program state: the heap, the thread-local `ROOTS` buffer, and the
chronological event log. -/
structure State where
  heap : Nat → Node
  roots : List Nat
  events : List Event

/-- Update the node stored at identifier `i`. -/
def State.upd (s : State) (i : Nat) (f : Node → Node) : State :=
  { s with heap := fun j => if j = i then f (s.heap j) else s.heap j }

/-- Append an event to the log. -/
def State.log (s : State) (e : Event) : State :=
  { s with events := s.events ++ [e] }

/-- `CcBoxPtr::inc_strong` (cc_box_ptr.rs): bump the strong count and set the
color to Black. -/
def inc_strong (s : State) (i : Nat) : State :=
  s.upd i fun n =>
    { n with data := { n.data with strong := n.data.strong + 1, color := Color.Black } }

/-- `CcBoxPtr::dec_strong` (cc_box_ptr.rs). -/
def dec_strong (s : State) (i : Nat) : State :=
  s.upd i fun n => { n with data := { n.data with strong := n.data.strong - 1 } }

/-- `CcBoxPtr::inc_weak` (cc_box_ptr.rs). -/
def inc_weak (s : State) (i : Nat) : State :=
  s.upd i fun n => { n with data := { n.data with weak := n.data.weak + 1 } }

/-- `CcBoxPtr::dec_weak` (cc_box_ptr.rs). -/
def dec_weak (s : State) (i : Nat) : State :=
  s.upd i fun n => { n with data := { n.data with weak := n.data.weak - 1 } }

/-- Set a node's color (`data().color.set(..)`). -/
def set_color (s : State) (i : Nat) (c : Color) : State :=
  s.upd i fun n => { n with data := { n.data with color := c } }

/-- Set a node's buffered flag (`data().buffered.set(..)`). -/
def set_buffered (s : State) (i : Nat) (b : Bool) : State :=
  s.upd i fun n => { n with data := { n.data with buffered := b } }

/-- `deallocate` (lib.rs): release the backing storage. -/
def deallocate (s : State) (i : Nat) : State :=
  (s.upd i fun n => { n with allocated := false }).log (Event.dealloc i)

/-- `Cc::possible_root` (lib.rs): color Purple and enqueue into the roots
buffer unless already Purple or already buffered (`collect::add_root`
appends). -/
def possible_root (s : State) (i : Nat) : State :=
  if (s.heap i).data.color = Color.Purple then s
  else
    let s := set_color s i Color.Purple
    if (s.heap i).data.buffered then s
    else
      let s := set_buffered s i true
      { s with roots := s.roots ++ [i] }

/-- Modelled from the spec: the post-destructor teardown `crate::cc_box_ptr::free`
invoked by `Cc::release` (lib.rs line 307).  The standalone function is not
present in `src/cc_box_ptr.rs` (only the trait method `CcBoxPtr::free` is);
spec section 4.4 step 2 describes it as: drop the implicit weak; if
`weak == 0` deallocate.  It does not run the payload destructor (release has
already done that). -/
def release_teardown (s : State) (i : Nat) : State :=
  let s := dec_weak s i
  if (s.heap i).data.weak = 0 then deallocate s i else s

/-- Task selector for the mutually recursive operations that can run user
code: strong-handle drop, payload destruction, `Cc::release`, the trait
method `CcBoxPtr::free`, and the recursive collector traversals `scan`,
`scan_black` and `collect_white`. -/
inductive Task where
  | ccDrop (i : Nat)
  | dropList (l : List Nat)
  | dropValue (i : Nat)
  | release (i : Nat)
  | freeBox (i : Nat)
  | scan (i : Nat)
  | scanList (l : List Nat)
  | scanBlack (i : Nat)
  | scanBlackList (l : List Nat)
  | collectWhite (i : Nat)
  | collectWhiteList (l : List Nat)

/-- Fueled interpreter for the mutually recursive operations.

* `ccDrop i` is `<Cc<T> as Drop>::drop` (lib.rs lines 521-533): if
  `strong > 0`, decrement; on reaching 0 call `release`, otherwise
  `possible_root`.
* `release i` is `Cc::release` (lib.rs lines 294-308): run the payload
  destructor, recolor Black, and unless buffered run the post-destructor
  teardown.
* `dropValue i` runs the payload destructor in place: the payload's owned
  strong handles are dropped (in order) and the payload is gone afterwards
  (its trace yields nothing).
* `freeBox i` is the trait method `CcBoxPtr::free` (cc_box_ptr.rs lines
  66-79): `dec_weak`; `drop_value`; if `weak == 0` deallocate.
* `scan` / `scanBlack` are `scan` and `scan_black` from `scan_roots`
  (collect.rs lines 301-334); note `scan_black` increments a child with
  `inc_strong` (which recolors Black) before testing `color != Black`.
* `collectWhite` is `collect_white` from `collect_roots` (collect.rs lines
  340-361): a White, unbuffered node is recolored Black, its children are
  visited, then the node itself is freed via the trait `free`. -/
def exec : Nat → Task → State → State
  | 0, _, s => s
  | fuel + 1, t, s =>
    match t with
    | Task.ccDrop i =>
      if (s.heap i).data.strong > 0 then
        let s := dec_strong s i
        if (s.heap i).data.strong = 0 then exec fuel (Task.release i) s
        else possible_root s i
      else s
    | Task.dropList [] => s
    | Task.dropList (c :: cs) =>
      let s := exec fuel (Task.ccDrop c) s
      exec fuel (Task.dropList cs) s
    | Task.dropValue i =>
      let cs := (s.heap i).children
      let s := s.log (Event.dropValue i)
      let s := s.upd i fun n => { n with children := [], alive := false }
      exec fuel (Task.dropList cs) s
    | Task.release i =>
      let s := exec fuel (Task.dropValue i) s
      let s := set_color s i Color.Black
      if (s.heap i).data.buffered then s else release_teardown s i
    | Task.freeBox i =>
      let s := dec_weak s i
      let s := exec fuel (Task.dropValue i) s
      if (s.heap i).data.weak = 0 then deallocate s i else s
    | Task.scan i =>
      if (s.heap i).data.color ≠ Color.Gray then s
      else if (s.heap i).data.strong > 0 then exec fuel (Task.scanBlack i) s
      else
        let s := set_color s i Color.White
        exec fuel (Task.scanList (s.heap i).children) s
    | Task.scanList [] => s
    | Task.scanList (c :: cs) =>
      let s := exec fuel (Task.scan c) s
      exec fuel (Task.scanList cs) s
    | Task.scanBlack i =>
      let s := set_color s i Color.Black
      exec fuel (Task.scanBlackList (s.heap i).children) s
    | Task.scanBlackList [] => s
    | Task.scanBlackList (c :: cs) =>
      let s := inc_strong s c
      let s := if (s.heap c).data.color ≠ Color.Black then exec fuel (Task.scanBlack c) s else s
      exec fuel (Task.scanBlackList cs) s
    | Task.collectWhite i =>
      if (s.heap i).data.color = Color.White ∧ (s.heap i).data.buffered = false then
        let s := set_color s i Color.Black
        let s := exec fuel (Task.collectWhiteList (s.heap i).children) s
        exec fuel (Task.freeBox i) s
      else s
    | Task.collectWhiteList [] => s
    | Task.collectWhiteList (c :: cs) =>
      let s := exec fuel (Task.collectWhite c) s
      exec fuel (Task.collectWhiteList cs) s

/-- The `mark_gray` closure of `mark_roots` (collect.rs lines 266-275)
applied to every child of every node of the pending-mark list: a child that
is already Gray is skipped; otherwise it is colored Gray and pushed onto the
pending-trace list. -/
def mark_gray_pass (s : State) (pm : List Nat) : State × List Nat :=
  pm.foldl
    (fun acc i =>
      (acc.1.heap i).children.foldl
        (fun acc2 c =>
          if (acc2.1.heap c).data.color = Color.Gray then acc2
          else (set_color acc2.1 c Color.Gray, acc2.2 ++ [c]))
        acc)
    (s, [])

/-- The decrement loop of `mark_roots` (collect.rs lines 283-291): every
node of the pending-trace list traces its children, decrementing each
child's strong count and pushing it onto the newly-pending list. -/
def dec_pass (s : State) (pt : List Nat) : State × List Nat :=
  pt.foldl
    (fun acc i =>
      (acc.1.heap i).children.foldl
        (fun acc2 c => (dec_strong acc2.1 c, acc2.2 ++ [c]))
        acc)
    (s, [])

/-- The `while !pending_mark.is_empty()` loop of `mark_roots` (collect.rs
lines 259-295). -/
def mark_loop : Nat → List Nat → State → State
  | 0, _, s => s
  | fuel + 1, pm, s =>
    if pm.isEmpty then s
    else
      let p := mark_gray_pass s pm
      let q := dec_pass p.1 p.2
      mark_loop fuel q.2 q.1

/-- `mark_roots` (collect.rs lines 220-296): drain the roots buffer, keep
the Purple roots (re-appending them to the buffer and seeding the marking
worklist with them), and for every other root clear its buffered flag and,
if it is Black with strong count 0, run the deferred `CcBoxPtr::free`. -/
def mark_roots (fuel : Nat) (s : State) : State :=
  let old := s.roots
  let s := { s with roots := ([] : List Nat) }
  let p := old.foldl
    (fun (acc : State × List Nat) i =>
      if (acc.1.heap i).data.color = Color.Purple then (acc.1, acc.2 ++ [i])
      else
        let s1 := set_buffered acc.1 i false
        let s1 :=
          if (s1.heap i).data.color = Color.Black ∧ (s1.heap i).data.strong = 0 then
            exec fuel (Task.freeBox i) s1
          else s1
        (s1, acc.2))
    (s, [])
  let s := { p.1 with roots := p.1.roots ++ p.2 }
  mark_loop fuel p.2 s

/-- `scan_roots` (collect.rs lines 301-334): run `scan` on every buffered
root. -/
def scan_roots (fuel : Nat) (s : State) : State :=
  s.roots.foldl (fun s i => exec fuel (Task.scan i) s) s

/-- `collect_roots` (collect.rs lines 340-361): drain the roots buffer; for
each drained root clear its buffered flag and run `collect_white`. -/
def collect_roots (fuel : Nat) (s : State) : State :=
  let old := s.roots
  let s := { s with roots := ([] : List Nat) }
  old.foldl
    (fun s i =>
      let s := set_buffered s i false
      exec fuel (Task.collectWhite i) s)
    s

/-- `collect_cycles` (collect.rs lines 205-209): the three phases in order. -/
def collect_cycles (fuel : Nat) (s : State) : State :=
  collect_roots fuel (scan_roots fuel (mark_roots fuel s))

/-- `<Cc<T> as Clone>::clone` (lib.rs lines 552-557): just `inc_strong`. -/
def clone_cc (s : State) (i : Nat) : State :=
  inc_strong s i

/-- `Cc::downgrade` (lib.rs lines 287-290): just `inc_weak`. -/
def downgrade (s : State) (i : Nat) : State :=
  inc_weak s i

/-- `Weak::upgrade` (lib.rs lines 772-779): `None` when the strong count is
0, otherwise `inc_strong` and hand out a new strong handle. -/
def upgrade (s : State) (i : Nat) : Option Nat × State :=
  if (s.heap i).data.strong = 0 then (none, s)
  else (some i, inc_strong s i)

/-- Dropping a strong handle, `<Cc<T> as Drop>::drop` (lib.rs lines
521-533), through the fueled interpreter. -/
def drop_cc (fuel : Nat) (s : State) (i : Nat) : State :=
  exec fuel (Task.ccDrop i) s

/-- `<Weak<T> as Drop>::drop` (lib.rs lines 808-819): if `weak > 0`,
decrement, and deallocate when the count reaches 0. -/
def drop_weak (s : State) (i : Nat) : State :=
  if (s.heap i).data.weak > 0 then
    let s := dec_weak s i
    if (s.heap i).data.weak = 0 then deallocate s i else s
  else s

/-- `Cc::strong_count` (lib.rs line 418). -/
def strong_count (s : State) (i : Nat) : Nat :=
  (s.heap i).data.strong

/-- `Cc::weak_count` (lib.rs line 422): `weak - 1` discounts the implicit
weak reference. -/
def weak_count (s : State) (i : Nat) : Nat :=
  (s.heap i).data.weak - 1

/-- `Cc::is_unique` (lib.rs lines 347-350). -/
def is_unique (s : State) (i : Nat) : Bool :=
  weak_count s i == 0 && strong_count s i == 1

/-- `Cc::try_unwrap` (lib.rs lines 370-385): when unique, move the payload
out (its child handles go to the caller undisturbed, no destructor runs) and
deallocate the storage; otherwise return the handle back with the state
untouched. -/
def try_unwrap (s : State) (i : Nat) : Except Nat (List Nat) × State :=
  if is_unique s i then
    (Except.ok (s.heap i).children,
      (s.upd i fun n => { n with children := [], alive := false, allocated := false }).log
        (Event.dealloc i))
  else (Except.error i, s)

/-- `<Cc<T> as Deref>::deref` (lib.rs lines 480-493): hand out a reference
to the payload when `strong_count() > 0`, otherwise fail fast (modelled as
`none`). -/
def deref (s : State) (i : Nat) : Option Nat :=
  if strong_count s i > 0 then some i else none

/-- Convenience constructor for an allocated, live node. -/
def node (strong weak : Nat) (buffered : Bool) (c : Color) (cs : List Nat) : Node :=
  ⟨⟨strong, weak, buffered, c⟩, cs, true, true⟩

/-- Placeholder for heap identifiers that are not allocated. -/
def deadNode : Node :=
  ⟨⟨0, 0, false, Color.Black⟩, [], false, false⟩

/-- Four-node cycle `0 → 1 → 2 → 3 → 0`; the last external handle on node 0
has just been dropped, so node 0 is Purple with strong count 1 and is the
only buffered root.  Every in-cycle edge contributes 1 to its target's
strong count. -/
def exC1 : State :=
  { heap := fun i =>
      if i = 0 then node 1 1 true Color.Purple [1]
      else if i = 1 then node 1 1 false Color.Black [2]
      else if i = 2 then node 1 1 false Color.Black [3]
      else if i = 3 then node 1 1 false Color.Black [0]
      else deadNode,
    roots := [0],
    events := [] }

/-- Five-node cycle `0 → 1 → 2 → 3 → 4 → 0` in which user code still holds
a live external handle on node 1 (strong count 2); the external handle on
node 0 has been dropped, making node 0 the only buffered (Purple) root. -/
def exC2 : State :=
  { heap := fun i =>
      if i = 0 then node 1 1 true Color.Purple [1]
      else if i = 1 then node 2 1 false Color.Black [2]
      else if i = 2 then node 1 1 false Color.Black [3]
      else if i = 3 then node 1 1 false Color.Black [4]
      else if i = 4 then node 1 1 false Color.Black [0]
      else deadNode,
    roots := [0],
    events := [] }

/-- Two-node cycle `0 ↔ 1`; the external handles on both nodes have been
dropped, so both are Purple buffered roots with strong count 1 (the in-cycle
edge). -/
def exC3 : State :=
  { heap := fun i =>
      if i = 0 then node 1 1 true Color.Purple [1]
      else if i = 1 then node 1 1 true Color.Purple [0]
      else deadNode,
    roots := [0, 1],
    events := [] }

/-- A single object with no children that is a buffered candidate root
(Purple, buffered) while one last strong handle is still alive. -/
def exC4 : State :=
  { heap := fun i =>
      if i = 0 then node 1 1 true Color.Purple []
      else deadNode,
    roots := [0],
    events := [] }

/-- Three-node cycle `0 → 1 → 2 → 0` in which user code still holds a live
external handle on node 1 (strong count 2); node 0 is the only buffered
(Purple) root. -/
def exC5 : State :=
  { heap := fun i =>
      if i = 0 then node 1 1 true Color.Purple [1]
      else if i = 1 then node 2 1 false Color.Black [2]
      else if i = 2 then node 1 1 false Color.Black [0]
      else deadNode,
    roots := [0],
    events := [] }

/-- A single object whose strong count is 1 while an outstanding `Weak`
handle exists (`weak = 2`: the implicit weak plus one downgrade). -/
def exC7 : State :=
  { heap := fun i =>
      if i = 0 then node 1 2 false Color.Black []
      else deadNode,
    roots := [],
    events := [] }

/-- A node whose payload has been destructed (phase 3) while its storage is
still allocated because a weak pin persists: strong 0, weak 1, not alive. -/
def exC8 : State :=
  { heap := fun i =>
      if i = 0 then ⟨⟨0, 1, false, Color.Black⟩, [], false, true⟩
      else deadNode,
    roots := [],
    events := [] }

/-- A node whose strong and weak counts are both already 0. -/
def exC10 : State :=
  { heap := fun i =>
      if i = 0 then ⟨⟨0, 0, false, Color.Black⟩, [], false, true⟩
      else deadNode,
    roots := [],
    events := [] }

end BaconRajanCc

namespace BaconRajanCc

/-- C1: the claim states that in phase 1 every Purple root with positive
strong count is itself recolored Gray by the gray-mark traversal and that
every traversed edge decrements its target's strong count exactly once.  On
the four-node cycle `exC1` the code behaves otherwise: the buffered Purple
root 0 (strong count 1) is still Purple after `mark_roots` (never Gray), its
child 1 is colored Gray yet its strong count is never decremented (still 1),
while node 0's own count has been decremented to 0; as a consequence the
full `collect_cycles` run performs no destructor call and no deallocation at
all (empty event log), leaking the dead cycle. -/
theorem c1_mark_roots_divergence :
    ((exC1.heap 0).data.color = Color.Purple ∧ (exC1.heap 0).data.strong = 1) ∧
    ((mark_roots 100 exC1).heap 0).data.color = Color.Purple ∧
    ((mark_roots 100 exC1).heap 0).data.strong = 0 ∧
    ((mark_roots 100 exC1).heap 1).data.color = Color.Gray ∧
    ((mark_roots 100 exC1).heap 1).data.strong = 1 ∧
    (collect_cycles 100 exC1).events = [] ∧
    ((collect_cycles 100 exC1).heap 2).allocated = true := by
  decide

/-- C2: the claim states that after phase 2 every object reachable from a
root still in the buffer is Black with its strong count restored or White.
On the five-node cycle `exC2` (live external handle on node 1), after
`mark_roots` then `scan_roots` the root 0 is still buffered in the roots
list, yet node 3 — reachable from 0 through 1 and 2 — is left Gray with
strong count 0 (its pre-collection value was 1): `scan_black` restores only
direct children because `inc_strong` recolors the child Black before the
`color != Black` recursion test, so the restoration never propagates. -/
theorem c2_scan_roots_divergence :
    (scan_roots 100 (mark_roots 100 exC2)).roots = [0] ∧
    ((scan_roots 100 (mark_roots 100 exC2)).heap 0).data.buffered = true ∧
    ((scan_roots 100 (mark_roots 100 exC2)).heap 0).data.color = Color.White ∧
    ((scan_roots 100 (mark_roots 100 exC2)).heap 1).data.color = Color.Black ∧
    ((scan_roots 100 (mark_roots 100 exC2)).heap 3).data.color = Color.Gray ∧
    ((scan_roots 100 (mark_roots 100 exC2)).heap 3).data.strong = 0 ∧
    (exC2.heap 3).data.strong = 1 ∧
    ((scan_roots 100 (mark_roots 100 exC2)).heap 4).data.color = Color.Gray := by
  decide

/-- C3: the claim states that phase 3 pins every collected White node with a
weak-count increment, gathers them into a list, and runs all payload
destructors before any storage is deallocated.  On the two-node cycle
`exC3` the code instead frees each node in place: the event log of the full
collection is destructor(0), dealloc(0), destructor(1), dealloc(1) — node
0's storage is deallocated before node 1's destructor runs (and no weak
count is ever incremented), so node 1's destructor observes freed storage. -/
theorem c3_collect_roots_divergence :
    (collect_cycles 100 exC3).events =
      [Event.dropValue 0, Event.dealloc 0, Event.dropValue 1, Event.dealloc 1] := by
  decide

/-- C4: the claim states the payload destructor runs exactly once: at the
strong-drop that reaches 0 on a buffered object, with the deferred teardown
in the next `mark_roots` only dropping the implicit weak and deallocating.
On `exC4` (a buffered candidate whose last strong handle is dropped), the
drop does run the destructor once and leaves the object buffered, but the
next `mark_roots` then calls the trait method `CcBoxPtr::free`, which calls
`drop_value` again: the event log shows the destructor event for node 0
twice. -/
theorem c4_double_destructor :
    (drop_cc 100 exC4 0).events = [Event.dropValue 0] ∧
    ((drop_cc 100 exC4 0).heap 0).data.buffered = true ∧
    (mark_roots 100 (drop_cc 100 exC4 0)).events =
      [Event.dropValue 0, Event.dropValue 0, Event.dealloc 0] := by
  decide

/-- C5: the claim states that an object with a live external handle keeps
strong count at least 1 across `collect_cycles` and is never freed.  On
`exC5` (three-node cycle with a live external handle on node 1, so its
strong count is 2 before collection), the full collection destructs and
deallocates node 1 and leaves its strong count at 0: the collector frees a
live object out from under its holder. -/
theorem c5_live_object_freed :
    (exC5.heap 1).data.strong = 2 ∧
    ((collect_cycles 100 exC5).heap 1).data.strong = 0 ∧
    ((collect_cycles 100 exC5).heap 1).allocated = false ∧
    ((collect_cycles 100 exC5).heap 1).alive = false := by
  decide

/-- C6: `Weak::upgrade` returns `Some` exactly when the strong count is
positive, in which case it increments the strong count by one and leaves the
weak count alone; when the strong count is 0 it returns `None` with the
state completely unchanged. -/
theorem c6_upgrade_spec (s : State) (i : Nat) :
    ((upgrade s i).1 = some i ↔ 0 < (s.heap i).data.strong) ∧
    (0 < (s.heap i).data.strong →
      ((upgrade s i).2.heap i).data.strong = (s.heap i).data.strong + 1 ∧
      ((upgrade s i).2.heap i).data.weak = (s.heap i).data.weak) ∧
    ((s.heap i).data.strong = 0 → upgrade s i = (none, s)) := by
  unfold upgrade
  by_cases h : (s.heap i).data.strong = 0
  · simp [h]
  · simp [h, inc_strong, State.upd, Nat.pos_of_ne_zero h]

/-- Witness for C6: on the concrete state `exC1`, node 0 has positive strong
count and upgrading bumps it by one. -/
theorem c6_upgrade_spec_witness :
    0 < (exC1.heap 0).data.strong ∧
    ((upgrade exC1 0).2.heap 0).data.strong = (exC1.heap 0).data.strong + 1 :=
  ⟨by decide, ((c6_upgrade_spec exC1 0).2.1 (by decide)).1⟩

/-- C7: given the implicit-weak invariant (`weak ≥ 1` while a strong handle
exists), `try_unwrap` succeeds — moving the payload out and releasing the
storage — exactly when `strong = 1` and `weak = 1`, and otherwise returns
the handle back with the state unchanged (so in particular an outstanding
downgrade forces `Err`). -/
theorem c7_try_unwrap_spec (s : State) (i : Nat) (h : 1 ≤ (s.heap i).data.weak) :
    ((try_unwrap s i).1 = Except.ok (s.heap i).children ↔
      (s.heap i).data.strong = 1 ∧ (s.heap i).data.weak = 1) ∧
    ((s.heap i).data.strong = 1 ∧ (s.heap i).data.weak = 1 →
      ((try_unwrap s i).2.heap i).allocated = false) ∧
    (¬((s.heap i).data.strong = 1 ∧ (s.heap i).data.weak = 1) →
      try_unwrap s i = (Except.error i, s)) := by
  unfold try_unwrap is_unique weak_count strong_count
  by_cases h1 : (s.heap i).data.strong = 1 <;> by_cases h2 : (s.heap i).data.weak = 1
  · simp [h1, h2, State.log, State.upd]
  · have : (s.heap i).data.weak - 1 ≠ 0 := by omega
    simp [h1, h2, this]
  · simp [h1, h2]
  · have : (s.heap i).data.weak - 1 ≠ 0 := by omega
    simp [h1, h2, this]

/-- Witness for C7: on `exC7` (one strong handle, one outstanding downgrade,
so `strong = 1`, `weak = 2`), `try_unwrap` returns the handle back with the
state unchanged. -/
theorem c7_try_unwrap_spec_witness :
    1 ≤ (exC7.heap 0).data.weak ∧ try_unwrap exC7 0 = (Except.error 0, exC7) :=
  ⟨by decide, (c7_try_unwrap_spec exC7 0 (by decide)).2.2 (by decide)⟩

/-- C8: dereferencing a strong handle yields a reference to the payload
exactly when the strong count is positive, and fails fast whenever the
strong count is 0. -/
theorem c8_deref_spec (s : State) (i : Nat) :
    (0 < (s.heap i).data.strong → deref s i = some i) ∧
    ((s.heap i).data.strong = 0 → deref s i = none) := by
  unfold deref strong_count
  constructor
  · intro h; simp [h]
  · intro h; simp [h]

/-- Witness for C8: on `exC8` — a node whose payload was destructed by
phase 3 while the storage is still allocated — deref fails fast. -/
theorem c8_deref_spec_witness :
    ((exC8.heap 0).alive = false ∧ (exC8.heap 0).allocated = true) ∧
    deref exC8 0 = none :=
  ⟨by decide, (c8_deref_spec exC8 0).2 (by decide)⟩

/-- C9: `inc_strong` increments the strong count and as a side effect sets
the color to Black, leaving the buffered flag alone; `Cc::clone` is exactly
`inc_strong`, a successful `Weak::upgrade` performs exactly `inc_strong`,
and one step of the `scan_black` restoration loop on a child is exactly
`inc_strong` on that child (the post-increment `color != Black` test then
never fires since the child has just been recolored Black). -/
theorem c9_inc_strong_blackens (s : State) (i : Nat) :
    ((inc_strong s i).heap i).data.color = Color.Black ∧
    ((inc_strong s i).heap i).data.strong = (s.heap i).data.strong + 1 ∧
    ((inc_strong s i).heap i).data.buffered = (s.heap i).data.buffered ∧
    clone_cc s i = inc_strong s i ∧
    (∀ fuel, exec (fuel + 1) (Task.scanBlackList [i]) s = inc_strong s i) ∧
    (0 < (s.heap i).data.strong → (upgrade s i).2 = inc_strong s i) := by
  refine ⟨?_, ?_, ?_, rfl, ?_, ?_⟩
  · simp [inc_strong, State.upd]
  · simp [inc_strong, State.upd]
  · simp [inc_strong, State.upd]
  · intro fuel
    have hb : ((inc_strong s i).heap i).data.color = Color.Black := by
      simp [inc_strong, State.upd]
    simp only [exec, hb, ne_eq, not_true_eq_false, if_false, ite_false]
    cases fuel <;> rfl
  · intro h
    unfold upgrade
    simp [Nat.pos_iff_ne_zero.mp h]

/-- Witness for C9: on the concrete state `exC1`, upgrading the Purple
buffered candidate 0 is exactly `inc_strong`, which recolors it Black. -/
theorem c9_inc_strong_blackens_witness :
    0 < (exC1.heap 0).data.strong ∧ (upgrade exC1 0).2 = inc_strong exC1 0 :=
  ⟨by decide, (c9_inc_strong_blackens exC1 0).2.2.2.2.2 (by decide)⟩

/-- C10: dropping a strong handle whose object's strong count is already 0,
or a weak handle whose object's weak count is already 0, is a no-op: both
Drop implementations test the count for positivity before decrementing, so
neither count underflows. -/
theorem c10_drop_when_zero_noop (fuel : Nat) (s : State) (i : Nat) :
    ((s.heap i).data.strong = 0 → drop_cc fuel s i = s) ∧
    ((s.heap i).data.weak = 0 → drop_weak s i = s) := by
  constructor
  · intro h
    unfold drop_cc
    cases fuel with
    | zero => rfl
    | succ n => simp [exec, h]
  · intro h
    unfold drop_weak
    simp [h]

/-- Witness for C10: dropping a strong handle on `exC8` (strong count 0) and
a weak handle on `exC10` (weak count 0) both leave the state untouched. -/
theorem c10_drop_when_zero_noop_witness :
    ((exC8.heap 0).data.strong = 0 ∧ drop_cc 5 exC8 0 = exC8) ∧
    ((exC10.heap 0).data.weak = 0 ∧ drop_weak exC10 0 = exC10) :=
  ⟨⟨by decide, (c10_drop_when_zero_noop 5 exC8 0).1 (by decide)⟩,
   ⟨by decide, (c10_drop_when_zero_noop 5 exC10 0).2 (by decide)⟩⟩

end BaconRajanCc
